import Mathlib

/-!
Formal model of the A/V `Synchronizer` of SimpleScreenRecorder and of its
encoders (`VideoEncoder.cpp`, `AudioEncoder.cpp`).

The repository snapshot contains the `Synchronizer` header
(`src/unnamed/part_000`: the `SharedData` field layout and the public
operations) but not `Synchronizer.cpp`, so the operational definitions of
the synchronizer below are modelled from the specification (spec.md,
sections 3, 4.1-4.4, 5 and 7), keeping the header's field and method
names.  `int64_t` is modelled as `Int`, `double` as `ℚ`, the video frame
queue as a `List`, and the `ByteQueue` audio buffer by its length in
samples.  Encoder calls are abstracted to state updates; the outcome of
an encoder call made by the worker thread is an explicit oracle value
(`EncResult`), and the worker thread itself is modelled as a step
function interleaved with the producer/control operations.

`VideoEncoder.cpp` (`src/unnamed/part_001`) and
`src/AV/Encoder/AudioEncoder.cpp` are present in the repository; the
encoder definitions at the end of the definition section are translated
directly from that source.
-/

/-- Kinds of once-per-session warnings held in `SharedData`
(`m_warn_drop_video`, `m_warn_desync`). -/
inductive WarnKind where
  | dropVideo
  | desync
deriving DecidableEq

/-- A buffered video frame (`AVFrameWrapper` in the queue
`m_video_buffer`): capture timestamp in microseconds plus an abstract
token standing for the owned pixel data. -/
structure VideoFrame where
  timestamp : Int
  data : Nat
deriving DecidableEq

/-- Oracle outcome of one encoder hand-off performed by the worker
thread: the encoder either accepts the data or throws. -/
inductive EncResult where
  | ok
  | exn
deriving DecidableEq

/-- Construction parameters and tunable constants of the synchronizer:
the member fields `m_video_frame_rate`, `m_audio_sample_rate`,
`m_audio_required_frame_size`, `m_allow_frame_skipping` and the static
constants `DESYNC_CORRECTION_P/I`, `DESYNC_ERROR_THRESHOLD`,
`MAX_VIDEO_FRAMES_BUFFERED`, `MAX_AUDIO_SAMPLES_BUFFERED`,
`MAX_FRAME_DELAY` declared in the header (their values live in the
missing `Synchronizer.cpp`, hence they are parameters here).
`video_enabled` / `audio_enabled` model whether the corresponding
encoder pointer passed to the constructor is non-null. -/
structure SyncConfig where
  video_enabled : Bool
  audio_enabled : Bool
  frame_rate : Nat
  sample_rate : Nat
  required_frame_size : Nat
  allow_frame_skipping : Bool
  DESYNC_CORRECTION_P : ℚ
  DESYNC_CORRECTION_I : ℚ
  DESYNC_ERROR_THRESHOLD : ℚ
  MAX_VIDEO_FRAMES_BUFFERED : Nat
  MAX_AUDIO_SAMPLES_BUFFERED : Nat
  MAX_FRAME_DELAY : Nat
deriving DecidableEq

/-- Modelled from the spec: the `SharedData` block of the `Synchronizer`
header (`src/unnamed/part_000`, lines 38-63) together with the atomic
flags of the synchronizer object (line 91).  `Synchronizer.cpp` is
missing from the snapshot, so the dynamic meaning of the fields follows
spec.md section 3.  `m_staged_audio_frame_samples` is the header field
named after the partially filled audio encoder frame; the audio
`ByteQueue` is modelled by its length in samples
(`m_audio_buffer_samples`); `m_log` models the sequence of warnings sent
to the logger collaborator; `m_audio_hole_pending` models the
`ReadAudioHole` discontinuity mark (spec.md section 9, open question b);
`m_worker_stopped` records that the emit worker thread has exited. -/
structure SharedData where
  m_staged_audio_frame_samples : Nat
  m_video_buffer : List VideoFrame
  m_audio_buffer_samples : Nat
  m_video_pts : Int
  m_audio_samples : Int
  m_time_offset : Int
  m_segment_video_started : Bool
  m_segment_audio_started : Bool
  m_segment_video_start_time : Int
  m_segment_audio_start_time : Int
  m_segment_video_stop_time : Int
  m_segment_audio_stop_time : Int
  m_segment_audio_can_drop : Bool
  m_segment_audio_samples_read : Int
  m_segment_video_last_timestamp : Int
  m_segment_audio_last_timestamp : Int
  m_segment_video_accumulated_delay : Int
  m_av_desync : ℚ
  m_av_desync_i : ℚ
  m_last_video_frame_data : Option Nat
  m_warn_drop_video : Bool
  m_warn_desync : Bool
  m_log : List WarnKind
  m_audio_hole_pending : Bool
  m_should_stop : Bool
  m_error_occurred : Bool
  m_worker_stopped : Bool
deriving DecidableEq

/-- Modelled from the spec: raise the "drop video" warning at most once
per session (spec.md 4.1 step 5 and section 7). -/
def raiseDropVideo (s : SharedData) : SharedData :=
  if s.m_warn_drop_video then s
  else { s with m_warn_drop_video := true, m_log := s.m_log ++ [WarnKind.dropVideo] }

/-- Modelled from the spec: raise the "desync" warning at most once per
session (spec.md 4.1 step 2 and section 7). -/
def raiseDesync (s : SharedData) : SharedData :=
  if s.m_warn_desync then s
  else { s with m_warn_desync := true, m_log := s.m_log ++ [WarnKind.desync] }

/-- Modelled from the spec: enqueue one converted frame into the video
ring buffer; if the queue length exceeds `MAX_VIDEO_FRAMES_BUFFERED`,
drop the oldest frame and raise the "drop video" warning (spec.md 4.1
step 5). -/
def enqueueFrame (cfg : SyncConfig) (f : VideoFrame) (s : SharedData) : SharedData :=
  let buf := s.m_video_buffer ++ [f]
  if cfg.MAX_VIDEO_FRAMES_BUFFERED < buf.length then
    raiseDropVideo { s with m_video_buffer := buf.tail }
  else
    { s with m_video_buffer := buf }

/-- Modelled from the spec: if the buffered samples exceed
`MAX_AUDIO_SAMPLES_BUFFERED`, drop from the head of the audio buffer,
bumping `m_segment_audio_samples_read` by the number of samples dropped
(spec.md 4.1 step 5 of `ReadAudioSamples`). -/
def audioOverflowTrim (cfg : SyncConfig) (s : SharedData) : SharedData :=
  if cfg.MAX_AUDIO_SAMPLES_BUFFERED < s.m_audio_buffer_samples then
    { s with
      m_audio_buffer_samples := cfg.MAX_AUDIO_SAMPLES_BUFFERED,
      m_segment_audio_samples_read := s.m_segment_audio_samples_read
        + ((s.m_audio_buffer_samples - cfg.MAX_AUDIO_SAMPLES_BUFFERED : Nat) : Int) }
  else s

/-- Clamp a drift value to the band `[-t, t]` (spec.md 4.1 step 2:
clamp `|av_desync|` to `DESYNC_ERROR_THRESHOLD`). -/
def clampQ (x t : ℚ) : ℚ := max (-t) (min t x)

/-- Modelled from the spec: expected arrival time (µs) of the next audio
sample, `audio_start_time + audio_samples_read × 1e6 /
required_sample_rate` (spec.md 4.1 step 2 of `ReadAudioSamples`). -/
def audioExpected (cfg : SyncConfig) (s : SharedData) : ℚ :=
  (s.m_segment_audio_start_time : ℚ)
    + (s.m_segment_audio_samples_read : ℚ) * 1000000 / (cfg.sample_rate : ℚ)

/-- Modelled from the spec: instantaneous drift in seconds, the incoming
block timestamp minus the expected arrival time (spec.md 4.1 step 2 and
4.4). -/
def audioError (cfg : SyncConfig) (s : SharedData) (ts : Int) : ℚ :=
  ((ts : ℚ) - audioExpected cfg s) / 1000000

/-- Modelled from the spec: elapsed time `dt` in seconds since the last
audio block was accepted. -/
def audioDt (s : SharedData) (ts : Int) : ℚ :=
  ((ts : ℚ) - (s.m_segment_audio_last_timestamp : ℚ)) / 1000000

/-- Modelled from the spec: the next integral term of the PI estimator,
`desync_i + DESYNC_CORRECTION_I × error × dt` (spec.md 4.4). -/
def desyncINext (cfg : SyncConfig) (s : SharedData) (ts : Int) : ℚ :=
  s.m_av_desync_i + cfg.DESYNC_CORRECTION_I * audioError cfg s ts * audioDt s ts

/-- Modelled from the spec: the unclamped next desync estimate,
`desync_i + DESYNC_CORRECTION_P × error` over the updated integral term
(spec.md 4.4). -/
def desyncRaw (cfg : SyncConfig) (s : SharedData) (ts : Int) : ℚ :=
  desyncINext cfg s ts + cfg.DESYNC_CORRECTION_P * audioError cfg s ts

/-- Modelled from the spec: `Synchronizer::GetSegmentStartStop` — the
common segment window `segment_start = max` of the start times and
`segment_stop = min` of the stop times over the started streams;
unstarted streams do not participate (spec.md 4.2 step 2). -/
def GetSegmentStartStop (s : SharedData) : Int × Int :=
  match s.m_segment_video_started, s.m_segment_audio_started with
  | true, true =>
      (max s.m_segment_video_start_time s.m_segment_audio_start_time,
       min s.m_segment_video_stop_time s.m_segment_audio_stop_time)
  | true, false => (s.m_segment_video_start_time, s.m_segment_video_stop_time)
  | false, true => (s.m_segment_audio_start_time, s.m_segment_audio_stop_time)
  | false, false => (0, 0)

/-- Modelled from the spec: `Synchronizer::GetTotalTime` — total
recording time in microseconds (spec.md 4.3). -/
def GetTotalTime (s : SharedData) : Int :=
  if s.m_segment_video_started || s.m_segment_audio_started then
    s.m_time_offset
      + max 0 ((GetSegmentStartStop s).2 - (GetSegmentStartStop s).1)
  else
    s.m_time_offset

/-- Modelled from the spec: `Synchronizer::GetNextVideoTimestamp` —
`max(video_last_timestamp + 1/frame_rate, video_stop_time)` while a
segment is running, `0` before the first frame (spec.md 4.1). -/
def GetNextVideoTimestamp (cfg : SyncConfig) (s : SharedData) : Int :=
  if s.m_segment_video_started then
    max (s.m_segment_video_last_timestamp + 1000000 / (cfg.frame_rate : Int))
      s.m_segment_video_stop_time
  else 0

/-- `Synchronizer::HasErrorOccurred` (header line 117). -/
def HasErrorOccurred (s : SharedData) : Bool := s.m_error_occurred

/-- Modelled from the spec: the intended output PTS of a frame in the
final stream, `round((frame.timestamp - video_start_time + time_offset)
× frame_rate / 1e6)` (spec.md 4.2, `FlushVideoBuffer`). -/
def targetPts (cfg : SyncConfig) (s : SharedData) (ts : Int) : Int :=
  ((ts - s.m_segment_video_start_time + s.m_time_offset) * (cfg.frame_rate : Int)
    + 500000) / 1000000

/-- Modelled from the spec: how many duplicates of the previous frame
the flush emits to fill the PTS gap in front of a frame with timestamp
`t` — one per missing PTS slot, capped by `MAX_FRAME_DELAY`, and zero
when no previous frame exists to clone (spec.md 4.2,
`FlushVideoBuffer`). -/
def dupCount (cfg : SyncConfig) (s : SharedData) (t : Int) : Nat :=
  match s.m_last_video_frame_data with
  | none => 0
  | some _ => min cfg.MAX_FRAME_DELAY (targetPts cfg s t - (s.m_video_pts + 1)).toNat

/-- Modelled from the spec: the loop of `Synchronizer::FlushVideoBuffer`
(spec.md 4.2).  While the head frame's timestamp is within the window:
a frame whose target PTS is in the past is dropped (or, with frame
skipping disallowed, the flush stalls); otherwise the previous frame is
duplicated once per missing PTS slot (capped by `MAX_FRAME_DELAY`, and
only possible when a previous frame exists) and the head frame is handed
to the encoder, advancing `m_video_pts`. -/
def flushVideoLoop (cfg : SyncConfig) (segment_stop : Int) :
    List VideoFrame → SharedData → SharedData
  | [], s => { s with m_video_buffer := [] }
  | f :: rest, s =>
    if segment_stop < f.timestamp then
      { s with m_video_buffer := f :: rest }
    else if targetPts cfg s f.timestamp < s.m_video_pts then
      if cfg.allow_frame_skipping then
        flushVideoLoop cfg segment_stop rest s
      else
        { s with m_video_buffer := f :: rest }
    else
      flushVideoLoop cfg segment_stop rest
        { s with
          m_video_pts := s.m_video_pts + (dupCount cfg s f.timestamp : Int) + 1,
          m_last_video_frame_data := some f.data,
          m_segment_video_accumulated_delay :=
            s.m_segment_video_accumulated_delay
              + (dupCount cfg s f.timestamp : Int) * (1000000 / (cfg.frame_rate : Int)) }

/-- Modelled from the spec: `Synchronizer::FlushVideoBuffer` (spec.md
4.2), draining the video queue up to the segment stop time. -/
def FlushVideoBuffer (cfg : SyncConfig) (segment_stop : Int) (s : SharedData) : SharedData :=
  flushVideoLoop cfg segment_stop s.m_video_buffer s

/-- Modelled from the spec: `Synchronizer::FlushAudioBuffer` (spec.md
4.2).  While `m_segment_audio_can_drop`, leading samples are discarded so
that the first emitted sample aligns with the segment start (bumping
`m_segment_audio_samples_read`); then as many full encoder frames of
`required_frame_size` samples as fall inside the window are consumed and
handed to the encoder, advancing `m_audio_samples`; `can_drop` is
cleared by the first emission. -/
def FlushAudioBuffer (cfg : SyncConfig) (segment_start segment_stop : Int)
    (s : SharedData) : SharedData :=
  if s.m_segment_audio_started then
    let s1 :=
      if s.m_segment_audio_can_drop then
        let targetRead : Int :=
          ((segment_start - s.m_segment_audio_start_time) * (cfg.sample_rate : Int)) / 1000000
        let d : Nat :=
          min (targetRead - s.m_segment_audio_samples_read).toNat s.m_audio_buffer_samples
        { s with
          m_audio_buffer_samples := s.m_audio_buffer_samples - d,
          m_segment_audio_samples_read := s.m_segment_audio_samples_read + (d : Int) }
      else s
    let windowSamples : Nat :=
      min s1.m_audio_buffer_samples
        ((((segment_stop - s1.m_segment_audio_start_time) * (cfg.sample_rate : Int)) / 1000000
            - s1.m_segment_audio_samples_read).toNat)
    let k := windowSamples / cfg.required_frame_size
    let consumed := k * cfg.required_frame_size
    { s1 with
      m_audio_buffer_samples := s1.m_audio_buffer_samples - consumed,
      m_segment_audio_samples_read := s1.m_segment_audio_samples_read + (consumed : Int),
      m_audio_samples := s1.m_audio_samples + (consumed : Int),
      m_segment_audio_can_drop := s1.m_segment_audio_can_drop && decide (k = 0) }
  else s

/-- Modelled from the spec: `Synchronizer::FlushBuffers` (spec.md 4.2) —
drain both buffers over the common window of the started streams; does
nothing when no stream has started. -/
def FlushBuffers (cfg : SyncConfig) (s : SharedData) : SharedData :=
  if s.m_segment_video_started || s.m_segment_audio_started then
    FlushAudioBuffer cfg (GetSegmentStartStop s).1 (GetSegmentStartStop s).2
      (FlushVideoBuffer cfg (GetSegmentStartStop s).2 s)
  else s

/-- Modelled from the spec: `Synchronizer::InitSegment` — reset the
per-segment state for a fresh segment; the started flags begin as true
exactly when the corresponding stream is disabled (header comment line
48, spec.md section 3), and the PI drift state is zeroed on segment
reset (spec.md 4.4). -/
def InitSegment (cfg : SyncConfig) (s : SharedData) : SharedData :=
  { s with
    m_segment_video_started := !cfg.video_enabled,
    m_segment_audio_started := !cfg.audio_enabled,
    m_segment_video_start_time := 0,
    m_segment_audio_start_time := 0,
    m_segment_video_stop_time := 0,
    m_segment_audio_stop_time := 0,
    m_segment_audio_can_drop := true,
    m_segment_audio_samples_read := 0,
    m_segment_video_last_timestamp := 0,
    m_segment_audio_last_timestamp := 0,
    m_segment_video_accumulated_delay := 0,
    m_av_desync := 0,
    m_av_desync_i := 0 }

/-- Modelled from the spec: the state of a freshly constructed
synchronizer session (empty buffers, zero output counters, no warnings
raised, worker running). -/
def initialState (cfg : SyncConfig) : SharedData :=
  InitSegment cfg
    { m_staged_audio_frame_samples := 0
      m_video_buffer := []
      m_audio_buffer_samples := 0
      m_video_pts := 0
      m_audio_samples := 0
      m_time_offset := 0
      m_segment_video_started := false
      m_segment_audio_started := false
      m_segment_video_start_time := 0
      m_segment_audio_start_time := 0
      m_segment_video_stop_time := 0
      m_segment_audio_stop_time := 0
      m_segment_audio_can_drop := true
      m_segment_audio_samples_read := 0
      m_segment_video_last_timestamp := 0
      m_segment_audio_last_timestamp := 0
      m_segment_video_accumulated_delay := 0
      m_av_desync := 0
      m_av_desync_i := 0
      m_last_video_frame_data := none
      m_warn_drop_video := false
      m_warn_desync := false
      m_log := []
      m_audio_hole_pending := false
      m_should_stop := false
      m_error_occurred := false
      m_worker_stopped := false }

/-- Modelled from the spec: `Synchronizer::NewSegment` (spec.md 4.3) —
idempotent against empty segments (if neither stream has started it does
nothing); otherwise the segment is drained, its duration is added to
`m_time_offset`, the buffers are cleared and a fresh segment begins. -/
def NewSegment (cfg : SyncConfig) (s : SharedData) : SharedData :=
  if s.m_segment_video_started = false ∧ s.m_segment_audio_started = false then s
  else
    let s1 := FlushBuffers cfg s
    InitSegment cfg
      { s1 with
        m_time_offset := s1.m_time_offset
          + max 0 ((GetSegmentStartStop s1).2 - (GetSegmentStartStop s1).1),
        m_video_buffer := [],
        m_audio_buffer_samples := 0,
        m_staged_audio_frame_samples := 0 }

/-- Modelled from the spec: the number of synthetic frames cloned from
the last frame's data when a gap of more than two frame periods is
detected between the previous accepted frame and a frame with timestamp
`ts` — one per elapsed frame period, capped by `MAX_FRAME_DELAY`, zero
on the first frame of a segment or when no previous frame data exists
(spec.md 4.1, `ReadVideoFrame` step 3). -/
def cloneCount (cfg : SyncConfig) (started_before : Bool) (s : SharedData) (ts : Int) : Nat :=
  if started_before ∧ 2 * (1000000 / (cfg.frame_rate : Int))
      < ts - s.m_segment_video_last_timestamp then
    match s.m_last_video_frame_data with
    | none => 0
    | some _ =>
        min cfg.MAX_FRAME_DELAY
          (((ts - s.m_segment_video_last_timestamp) / (1000000 / (cfg.frame_rate : Int))).toNat
            - 1)
  else 0

/-- Modelled from the spec: enqueue `k` clones of the last frame's data
at frame-period spacing after the previous accepted frame, each subject
to the overflow drop policy (spec.md 4.1, `ReadVideoFrame` step 3). -/
def enqueueClones (cfg : SyncConfig) (base period : Int) (d : Nat) (k : Nat)
    (s : SharedData) : SharedData :=
  (List.range k).foldl
    (fun st i => enqueueFrame cfg ⟨base + period * ((i : Int) + 1), d⟩ st) s

/-- Modelled from the spec: `Synchronizer::ReadVideoFrame` (spec.md 4.1).
The pixel conversion by the scaler is abstracted into the frame's data
token.  Steps: start the segment on the first frame; drop late arrivals;
on a gap of more than two frame periods clone the last frame's data at
frame-period spacing (capped by `MAX_FRAME_DELAY`); enqueue with the
overflow drop policy; update the last timestamp and the stop time. -/
def ReadVideoFrame (cfg : SyncConfig) (ts : Int) (data : Nat) (s : SharedData) : SharedData :=
  let s0 :=
    if s.m_segment_video_started then s
    else
      { s with
        m_segment_video_started := true,
        m_segment_video_start_time := ts,
        m_segment_video_stop_time := ts }
  if ts < s0.m_segment_video_last_timestamp then s0
  else
    let s1 := enqueueClones cfg s0.m_segment_video_last_timestamp
      (1000000 / (cfg.frame_rate : Int)) (s0.m_last_video_frame_data.getD 0)
      (cloneCount cfg s.m_segment_video_started s0 ts) s0
    let s2 := enqueueFrame cfg ⟨ts, data⟩ s1
    { s2 with
      m_segment_video_last_timestamp := ts,
      m_segment_video_stop_time := max s2.m_segment_video_stop_time ts }

/-- Modelled from the spec: `Synchronizer::ReadVideoPing` — advance
`m_segment_video_stop_time` without enqueuing (spec.md 4.1). -/
def ReadVideoPing (ts : Int) (s : SharedData) : SharedData :=
  if s.m_segment_video_started then
    { s with m_segment_video_stop_time := max s.m_segment_video_stop_time ts }
  else s

/-- Modelled from the spec: `Synchronizer::ReadAudioSamples` (spec.md
4.1).  The resampler is abstracted: the appended sample count equals the
incoming count.  Steps: start the segment on the first block; update the
PI drift estimator and clamp `m_av_desync`, raising the "desync" warning
once when the unclamped value exceeds the threshold; append to the audio
buffer; trim overflow from the head; update the last timestamp and the
stop time. -/
def ReadAudioSamples (cfg : SyncConfig) (sample_count : Nat) (ts : Int)
    (s : SharedData) : SharedData :=
  let s0 :=
    if s.m_segment_audio_started then s
    else
      { s with
        m_segment_audio_started := true,
        m_segment_audio_start_time := ts,
        m_segment_audio_stop_time := ts,
        m_segment_audio_last_timestamp := ts }
  let s1 :=
    { s0 with
      m_av_desync_i := desyncINext cfg s0 ts,
      m_av_desync := clampQ (desyncRaw cfg s0 ts) cfg.DESYNC_ERROR_THRESHOLD }
  let s2 :=
    if cfg.DESYNC_ERROR_THRESHOLD < |desyncRaw cfg s0 ts| then raiseDesync s1 else s1
  let s3 := { s2 with m_audio_buffer_samples := s2.m_audio_buffer_samples + sample_count }
  let s4 := audioOverflowTrim cfg s3
  { s4 with
    m_segment_audio_last_timestamp := ts,
    m_segment_audio_stop_time :=
      max s4.m_segment_audio_stop_time
        (ts + ((sample_count : Int) * 1000000) / (cfg.sample_rate : Int)),
    m_audio_hole_pending := false }

/-- Modelled from the spec: `Synchronizer::ReadAudioHole` — the audio
source lost data of unknown size; following the documented choice for
the ambiguous case (spec.md section 9, open question b) a discontinuity
is marked so that the next audio block realigns or zero-pads. -/
def ReadAudioHole (s : SharedData) : SharedData :=
  if s.m_segment_audio_started then { s with m_audio_hole_pending := true } else s

/-- Modelled from the spec: one iteration of the emit worker thread
(`Synchronizer::SynchronizerThread`, spec.md 4.2 and section 5): once
stopped it never runs again; it observes `m_should_stop` and exits; an
exception from an encoder sets `m_error_occurred` and terminates the
worker; otherwise it flushes the buffers over the common window. -/
def SynchronizerThreadStep (cfg : SyncConfig) (r : EncResult) (s : SharedData) : SharedData :=
  if s.m_worker_stopped then s
  else if s.m_should_stop then { s with m_worker_stopped := true }
  else
    match r with
    | .exn => { s with m_error_occurred := true, m_worker_stopped := true }
    | .ok => FlushBuffers cfg s

/-- One observable operation on a synchronizer session: the producer
ingest entry points, the control surface, one worker iteration (with its
encoder oracle), and the stop request issued by destruction. -/
inductive SyncOp where
  | videoFrame (ts : Int) (data : Nat)
  | videoPing (ts : Int)
  | audioSamples (n : Nat) (ts : Int)
  | audioHole
  | newSegment
  | workerIter (r : EncResult)
  | stopRequest
deriving DecidableEq

/-- Apply one operation to the shared state. -/
def applyOp (cfg : SyncConfig) : SyncOp → SharedData → SharedData
  | .videoFrame ts d, s => ReadVideoFrame cfg ts d s
  | .videoPing ts, s => ReadVideoPing ts s
  | .audioSamples n ts, s => ReadAudioSamples cfg n ts s
  | .audioHole, s => ReadAudioHole s
  | .newSegment, s => NewSegment cfg s
  | .workerIter r, s => SynchronizerThreadStep cfg r s
  | .stopRequest, s => { s with m_should_stop := true }

/-- Run a sequence of operations. -/
def runOps (cfg : SyncConfig) : List SyncOp → SharedData → SharedData
  | [], s => s
  | op :: rest, s => runOps cfg rest (applyOp cfg op s)

/-- Number of warnings of a given kind in the logger output. -/
def countWarn (w : WarnKind) : List WarnKind → Nat
  | [] => 0
  | x :: l => (if x = w then 1 else 0) + countWarn w l

/-- Both ring buffers observe their configured ceilings. -/
def BuffersBounded (cfg : SyncConfig) (s : SharedData) : Prop :=
  s.m_video_buffer.length ≤ cfg.MAX_VIDEO_FRAMES_BUFFERED
    ∧ s.m_audio_buffer_samples ≤ cfg.MAX_AUDIO_SAMPLES_BUFFERED

/-- Result of running the dimension validation in the `VideoEncoder`
constructor (`src/unnamed/part_001`, lines 36-47): either a
`LibavException` is thrown before any codec is created, or all three
checks pass and control reaches `CreateCodec`. -/
inductive VideoInitResult where
  | throwBeforeCodec
  | codecCreationAttempted
deriving DecidableEq

/-- The dimension validation of `VideoEncoder::VideoEncoder`
(`src/unnamed/part_001`, lines 36-47), translated check by check: zero
width/height, width/height above 10000, odd width/height each throw;
otherwise codec creation is attempted. -/
def VideoEncoderInit (width height : Nat) : VideoInitResult :=
  if width = 0 ∨ height = 0 then .throwBeforeCodec
  else if 10000 < width ∨ 10000 < height then .throwBeforeCodec
  else if width % 2 ≠ 0 ∨ height % 2 ≠ 0 then .throwBeforeCodec
  else .codecCreationAttempted

/-- The libav sample formats relevant to `AudioEncoder`. -/
inductive AVSampleFmt where
  | u8
  | s16
  | s32
  | flt
  | dbl
deriving DecidableEq

/-- The slice of `AVCodecContext` touched by `AudioEncoder`
(`src/AV/Encoder/AudioEncoder.cpp`): `bit_rate`, `sample_rate`,
`channels`, `sample_fmt`, `frame_size`, and the
`CODEC_CAP_VARIABLE_FRAME_SIZE` capability bit of the codec. -/
structure AVCodecCtx where
  bit_rate : Nat
  sample_rate : Nat
  channels : Nat
  sample_fmt : AVSampleFmt
  frame_size : Nat
  variable_frame_size : Bool
deriving DecidableEq

/-- `AudioEncoder::FillCodecContext` (`AudioEncoder.cpp`, lines 68-75):
sets the bit rate and sample rate from the constructor arguments and
always forces 2 channels and `AV_SAMPLE_FMT_S16`. -/
def FillCodecContext (m_bit_rate m_sample_rate : Nat) (ctx : AVCodecCtx) : AVCodecCtx :=
  { ctx with
    bit_rate := m_bit_rate,
    sample_rate := m_sample_rate,
    channels := 2,
    sample_fmt := .s16 }

/-- `AudioEncoder::GetRequiredFrameSize` (`AudioEncoder.cpp`, lines
60-66).  `useNewApi` is the compile-time flag
`SSR_USE_AVCODEC_ENCODE_AUDIO2`: under the new API the fallback 1024 is
used when the codec has `CODEC_CAP_VARIABLE_FRAME_SIZE`; under the old
API it is used when `frame_size` is zero. -/
def GetRequiredFrameSize (useNewApi : Bool) (ctx : AVCodecCtx) : Nat :=
  if useNewApi then
    if ctx.variable_frame_size then 1024 else ctx.frame_size
  else
    if ctx.frame_size = 0 then 1024 else ctx.frame_size

/-- The slice of an audio `AVFrame` checked by the old-API
`AudioEncoder::EncodeFrame`: its sample format. -/
structure AudioFrame where
  format : AVSampleFmt
deriving DecidableEq

/-- The old-API branch of `AudioEncoder::EncodeFrame`
(`AudioEncoder.cpp`, lines 102-144, with `SSR_USE_AVFRAME_FORMAT`): a
non-null frame whose format is not `AV_SAMPLE_FMT_S16` throws before the
encoder is invoked; the result of `avcodec_encode_audio` is the oracle
`bytes_encoded` — negative throws, positive produces a packet
(`.ok true`), zero produces none (`.ok false`). -/
def EncodeFrameOldApi (frame : Option AudioFrame) (bytes_encoded : Int) : Except Unit Bool :=
  match frame with
  | some f =>
      if f.format ≠ AVSampleFmt.s16 then .error ()
      else if bytes_encoded < 0 then .error ()
      else .ok (0 < bytes_encoded)
  | none =>
      if bytes_encoded < 0 then .error () else .ok (0 < bytes_encoded)

/-- Each warning kind reaches the logger at most once per session, and
none before its sticky flag is set. -/
def WInv (s : SharedData) : Prop :=
  (countWarn .dropVideo s.m_log ≤ 1
      ∧ (s.m_warn_drop_video = false → countWarn .dropVideo s.m_log = 0))
    ∧ (countWarn .desync s.m_log ≤ 1
      ∧ (s.m_warn_desync = false → countWarn .desync s.m_log = 0))

/-- A small concrete configuration used to exhibit satisfiable
hypotheses: both streams enabled, tiny buffer ceilings. -/
def cfgA : SyncConfig :=
  { video_enabled := true
    audio_enabled := true
    frame_rate := 30
    sample_rate := 10
    required_frame_size := 4
    allow_frame_skipping := true
    DESYNC_CORRECTION_P := 1/2
    DESYNC_CORRECTION_I := 1/8
    DESYNC_ERROR_THRESHOLD := 20
    MAX_VIDEO_FRAMES_BUFFERED := 1
    MAX_AUDIO_SAMPLES_BUFFERED := 2
    MAX_FRAME_DELAY := 10 }

/-- A concrete mid-session state over `cfgA`: both streams started, the
video queue and the audio buffer at their ceilings. -/
def stA : SharedData :=
  { initialState cfgA with
    m_segment_video_started := true
    m_segment_audio_started := true
    m_video_buffer := [⟨0, 0⟩]
    m_audio_buffer_samples := 2 }

/-- `stA` after the worker thread has exited. -/
def stStopped : SharedData := { stA with m_worker_stopped := true }

/-- `stA` after an encoder failure has been recorded. -/
def stErr : SharedData := { stA with m_error_occurred := true }

/-- A codec context with a positive fixed frame size and the S16 sample
format. -/
def posCtx : AVCodecCtx :=
  { bit_rate := 0
    sample_rate := 0
    channels := 0
    sample_fmt := .s16
    frame_size := 512
    variable_frame_size := false }

/-- A codec context under the new encode API with `frame_size = 0` and
without the variable-frame-size capability. -/
def zeroVarCtx : AVCodecCtx :=
  { bit_rate := 0
    sample_rate := 0
    channels := 0
    sample_fmt := .flt
    frame_size := 0
    variable_frame_size := false }

@[simp] theorem countWarn_nil (w : WarnKind) : countWarn w [] = 0 := rfl

theorem countWarn_append (w : WarnKind) (l1 l2 : List WarnKind) :
    countWarn w (l1 ++ l2) = countWarn w l1 + countWarn w l2 := by
  induction l1 with
  | nil => simp [countWarn]
  | cons x l ih => simp [countWarn, ih]; omega

theorem abs_clampQ_le (x t : ℚ) (ht : 0 ≤ t) : |clampQ x t| ≤ t := by
  unfold clampQ
  rw [abs_le]
  exact ⟨le_max_left _ _, max_le (by linarith) (min_le_left _ _)⟩

theorem foldl_pres {α : Type} {P : SharedData → Prop} (g : α → SharedData → SharedData)
    (h : ∀ x st, P st → P (g x st)) :
    ∀ (l : List α) (s : SharedData), P s → P (l.foldl (fun st x => g x st) s) := by
  intro l
  induction l with
  | nil => intro s hs; exact hs
  | cons x xs ih => intro s hs; exact ih _ (h x s hs)

@[simp] theorem raiseDropVideo_video_buffer (s : SharedData) :
    (raiseDropVideo s).m_video_buffer = s.m_video_buffer := by
  unfold raiseDropVideo; split <;> rfl

@[simp] theorem raiseDropVideo_audio_buffer (s : SharedData) :
    (raiseDropVideo s).m_audio_buffer_samples = s.m_audio_buffer_samples := by
  unfold raiseDropVideo; split <;> rfl

@[simp] theorem raiseDropVideo_video_pts (s : SharedData) :
    (raiseDropVideo s).m_video_pts = s.m_video_pts := by
  unfold raiseDropVideo; split <;> rfl

@[simp] theorem raiseDropVideo_audio_samples (s : SharedData) :
    (raiseDropVideo s).m_audio_samples = s.m_audio_samples := by
  unfold raiseDropVideo; split <;> rfl

@[simp] theorem raiseDropVideo_error (s : SharedData) :
    (raiseDropVideo s).m_error_occurred = s.m_error_occurred := by
  unfold raiseDropVideo; split <;> rfl

@[simp] theorem raiseDropVideo_warn_desync (s : SharedData) :
    (raiseDropVideo s).m_warn_desync = s.m_warn_desync := by
  unfold raiseDropVideo; split <;> rfl

@[simp] theorem raiseDropVideo_count_desync (s : SharedData) :
    countWarn .desync (raiseDropVideo s).m_log = countWarn .desync s.m_log := by
  unfold raiseDropVideo; split
  · rfl
  · simp [countWarn_append, countWarn]

theorem raiseDropVideo_winv (s : SharedData) (h : WInv s) : WInv (raiseDropVideo s) := by
  unfold raiseDropVideo
  split
  · exact h
  · next hw =>
      obtain ⟨⟨h1, h2⟩, h3⟩ := h
      have hw0 : s.m_warn_drop_video = false := by simpa using hw
      constructor
      · constructor
        · simp only [countWarn_append]
          have := h2 hw0
          simp [countWarn]
          omega
        · intro hfalse
          simp at hfalse
      · simpa [countWarn_append, countWarn] using h3

@[simp] theorem raiseDesync_video_buffer (s : SharedData) :
    (raiseDesync s).m_video_buffer = s.m_video_buffer := by
  unfold raiseDesync; split <;> rfl

@[simp] theorem raiseDesync_audio_buffer (s : SharedData) :
    (raiseDesync s).m_audio_buffer_samples = s.m_audio_buffer_samples := by
  unfold raiseDesync; split <;> rfl

@[simp] theorem raiseDesync_samples_read (s : SharedData) :
    (raiseDesync s).m_segment_audio_samples_read = s.m_segment_audio_samples_read := by
  unfold raiseDesync; split <;> rfl

@[simp] theorem raiseDesync_video_pts (s : SharedData) :
    (raiseDesync s).m_video_pts = s.m_video_pts := by
  unfold raiseDesync; split <;> rfl

@[simp] theorem raiseDesync_audio_samples (s : SharedData) :
    (raiseDesync s).m_audio_samples = s.m_audio_samples := by
  unfold raiseDesync; split <;> rfl

@[simp] theorem raiseDesync_error (s : SharedData) :
    (raiseDesync s).m_error_occurred = s.m_error_occurred := by
  unfold raiseDesync; split <;> rfl

@[simp] theorem raiseDesync_av_desync (s : SharedData) :
    (raiseDesync s).m_av_desync = s.m_av_desync := by
  unfold raiseDesync; split <;> rfl

@[simp] theorem raiseDesync_av_desync_i (s : SharedData) :
    (raiseDesync s).m_av_desync_i = s.m_av_desync_i := by
  unfold raiseDesync; split <;> rfl

@[simp] theorem raiseDesync_warn_drop (s : SharedData) :
    (raiseDesync s).m_warn_drop_video = s.m_warn_drop_video := by
  unfold raiseDesync; split <;> rfl

@[simp] theorem raiseDesync_count_drop (s : SharedData) :
    countWarn .dropVideo (raiseDesync s).m_log = countWarn .dropVideo s.m_log := by
  unfold raiseDesync; split
  · rfl
  · simp [countWarn_append, countWarn]

theorem raiseDesync_winv (s : SharedData) (h : WInv s) : WInv (raiseDesync s) := by
  unfold raiseDesync
  split
  · exact h
  · next hw =>
      obtain ⟨h1, h2, h3⟩ := h
      have hw0 : s.m_warn_desync = false := by simpa using hw
      refine ⟨by simpa [countWarn_append, countWarn] using h1, ?_, ?_⟩
      · simp only [countWarn_append]
        have := h3 hw0
        simp [countWarn]
        omega
      · intro hfalse
        simp at hfalse

@[simp] theorem enqueueFrame_video_pts (cfg : SyncConfig) (f : VideoFrame) (s : SharedData) :
    (enqueueFrame cfg f s).m_video_pts = s.m_video_pts := by
  simp only [enqueueFrame]; split <;> simp

@[simp] theorem enqueueFrame_audio_samples (cfg : SyncConfig) (f : VideoFrame) (s : SharedData) :
    (enqueueFrame cfg f s).m_audio_samples = s.m_audio_samples := by
  simp only [enqueueFrame]; split <;> simp

@[simp] theorem enqueueFrame_audio_buffer (cfg : SyncConfig) (f : VideoFrame) (s : SharedData) :
    (enqueueFrame cfg f s).m_audio_buffer_samples = s.m_audio_buffer_samples := by
  simp only [enqueueFrame]; split <;> simp

@[simp] theorem enqueueFrame_error (cfg : SyncConfig) (f : VideoFrame) (s : SharedData) :
    (enqueueFrame cfg f s).m_error_occurred = s.m_error_occurred := by
  simp only [enqueueFrame]; split <;> simp

@[simp] theorem enqueueFrame_warn_desync (cfg : SyncConfig) (f : VideoFrame) (s : SharedData) :
    (enqueueFrame cfg f s).m_warn_desync = s.m_warn_desync := by
  simp only [enqueueFrame]; split <;> simp

@[simp] theorem enqueueFrame_count_desync (cfg : SyncConfig) (f : VideoFrame) (s : SharedData) :
    countWarn .desync (enqueueFrame cfg f s).m_log = countWarn .desync s.m_log := by
  simp only [enqueueFrame]; split <;> simp

theorem enqueueFrame_bound (cfg : SyncConfig) (f : VideoFrame) (s : SharedData)
    (h : s.m_video_buffer.length ≤ cfg.MAX_VIDEO_FRAMES_BUFFERED) :
    (enqueueFrame cfg f s).m_video_buffer.length ≤ cfg.MAX_VIDEO_FRAMES_BUFFERED := by
  simp only [enqueueFrame]
  split
  · next hlen =>
      simp only [raiseDropVideo_video_buffer]
      simp only [List.length_tail, List.length_append, List.length_singleton] at *
      omega
  · next hlen =>
      simp only [List.length_append, List.length_singleton] at *
      omega

theorem enqueueFrame_winv (cfg : SyncConfig) (f : VideoFrame) (s : SharedData)
    (h : WInv s) : WInv (enqueueFrame cfg f s) := by
  simp only [enqueueFrame]
  split
  · apply raiseDropVideo_winv
    exact h
  · exact h

@[simp] theorem enqueueClones_video_pts (cfg : SyncConfig) (a p : Int) (d k : Nat)
    (s : SharedData) : (enqueueClones cfg a p d k s).m_video_pts = s.m_video_pts := by
  unfold enqueueClones
  exact foldl_pres (P := fun st => st.m_video_pts = s.m_video_pts) _
    (fun x st hst => by dsimp only; rw [enqueueFrame_video_pts]; exact hst) _ s rfl

@[simp] theorem enqueueClones_audio_samples (cfg : SyncConfig) (a p : Int) (d k : Nat)
    (s : SharedData) : (enqueueClones cfg a p d k s).m_audio_samples = s.m_audio_samples := by
  unfold enqueueClones
  exact foldl_pres (P := fun st => st.m_audio_samples = s.m_audio_samples) _
    (fun x st hst => by dsimp only; rw [enqueueFrame_audio_samples]; exact hst) _ s rfl

@[simp] theorem enqueueClones_audio_buffer (cfg : SyncConfig) (a p : Int) (d k : Nat)
    (s : SharedData) :
    (enqueueClones cfg a p d k s).m_audio_buffer_samples = s.m_audio_buffer_samples := by
  unfold enqueueClones
  exact foldl_pres (P := fun st => st.m_audio_buffer_samples = s.m_audio_buffer_samples) _
    (fun x st hst => by dsimp only; rw [enqueueFrame_audio_buffer]; exact hst) _ s rfl

@[simp] theorem enqueueClones_error (cfg : SyncConfig) (a p : Int) (d k : Nat)
    (s : SharedData) : (enqueueClones cfg a p d k s).m_error_occurred = s.m_error_occurred := by
  unfold enqueueClones
  exact foldl_pres (P := fun st => st.m_error_occurred = s.m_error_occurred) _
    (fun x st hst => by dsimp only; rw [enqueueFrame_error]; exact hst) _ s rfl

@[simp] theorem enqueueClones_warn_desync (cfg : SyncConfig) (a p : Int) (d k : Nat)
    (s : SharedData) : (enqueueClones cfg a p d k s).m_warn_desync = s.m_warn_desync := by
  unfold enqueueClones
  exact foldl_pres (P := fun st => st.m_warn_desync = s.m_warn_desync) _
    (fun x st hst => by dsimp only; rw [enqueueFrame_warn_desync]; exact hst) _ s rfl

@[simp] theorem enqueueClones_count_desync (cfg : SyncConfig) (a p : Int) (d k : Nat)
    (s : SharedData) :
    countWarn .desync (enqueueClones cfg a p d k s).m_log
      = countWarn .desync s.m_log := by
  unfold enqueueClones
  exact foldl_pres
    (P := fun st => countWarn .desync st.m_log = countWarn .desync s.m_log) _
    (fun x st hst => by dsimp only; rw [enqueueFrame_count_desync]; exact hst) _ s rfl

theorem enqueueClones_bound (cfg : SyncConfig) (a p : Int) (d k : Nat) (s : SharedData)
    (h : s.m_video_buffer.length ≤ cfg.MAX_VIDEO_FRAMES_BUFFERED) :
    (enqueueClones cfg a p d k s).m_video_buffer.length ≤ cfg.MAX_VIDEO_FRAMES_BUFFERED := by
  unfold enqueueClones
  exact foldl_pres
    (P := fun st => st.m_video_buffer.length ≤ cfg.MAX_VIDEO_FRAMES_BUFFERED) _
    (fun x st hst => enqueueFrame_bound cfg _ st hst) _ s h

theorem enqueueClones_winv (cfg : SyncConfig) (a p : Int) (d k : Nat) (s : SharedData)
    (h : WInv s) : WInv (enqueueClones cfg a p d k s) := by
  unfold enqueueClones
  exact foldl_pres (P := WInv) _ (fun x st hst => enqueueFrame_winv cfg _ st hst) _ s h

@[simp] theorem audioOverflowTrim_video_buffer (cfg : SyncConfig) (s : SharedData) :
    (audioOverflowTrim cfg s).m_video_buffer = s.m_video_buffer := by
  unfold audioOverflowTrim; split <;> rfl

@[simp] theorem audioOverflowTrim_video_pts (cfg : SyncConfig) (s : SharedData) :
    (audioOverflowTrim cfg s).m_video_pts = s.m_video_pts := by
  unfold audioOverflowTrim; split <;> rfl

@[simp] theorem audioOverflowTrim_audio_samples (cfg : SyncConfig) (s : SharedData) :
    (audioOverflowTrim cfg s).m_audio_samples = s.m_audio_samples := by
  unfold audioOverflowTrim; split <;> rfl

@[simp] theorem audioOverflowTrim_error (cfg : SyncConfig) (s : SharedData) :
    (audioOverflowTrim cfg s).m_error_occurred = s.m_error_occurred := by
  unfold audioOverflowTrim; split <;> rfl

@[simp] theorem audioOverflowTrim_log (cfg : SyncConfig) (s : SharedData) :
    (audioOverflowTrim cfg s).m_log = s.m_log := by
  unfold audioOverflowTrim; split <;> rfl

@[simp] theorem audioOverflowTrim_warn_drop (cfg : SyncConfig) (s : SharedData) :
    (audioOverflowTrim cfg s).m_warn_drop_video = s.m_warn_drop_video := by
  unfold audioOverflowTrim; split <;> rfl

@[simp] theorem audioOverflowTrim_warn_desync (cfg : SyncConfig) (s : SharedData) :
    (audioOverflowTrim cfg s).m_warn_desync = s.m_warn_desync := by
  unfold audioOverflowTrim; split <;> rfl

@[simp] theorem audioOverflowTrim_av_desync (cfg : SyncConfig) (s : SharedData) :
    (audioOverflowTrim cfg s).m_av_desync = s.m_av_desync := by
  unfold audioOverflowTrim; split <;> rfl

@[simp] theorem audioOverflowTrim_av_desync_i (cfg : SyncConfig) (s : SharedData) :
    (audioOverflowTrim cfg s).m_av_desync_i = s.m_av_desync_i := by
  unfold audioOverflowTrim; split <;> rfl

theorem audioOverflowTrim_le (cfg : SyncConfig) (s : SharedData) :
    (audioOverflowTrim cfg s).m_audio_buffer_samples ≤ cfg.MAX_AUDIO_SAMPLES_BUFFERED := by
  unfold audioOverflowTrim
  split
  · simp
  · next h => simpa using Nat.le_of_not_lt h

theorem flushVideoLoop_spec (cfg : SyncConfig) (b : Int) :
    ∀ (l : List VideoFrame) (s : SharedData),
      s.m_video_pts ≤ (flushVideoLoop cfg b l s).m_video_pts
      ∧ (flushVideoLoop cfg b l s).m_video_buffer.length ≤ l.length
      ∧ (flushVideoLoop cfg b l s).m_audio_buffer_samples = s.m_audio_buffer_samples
      ∧ (flushVideoLoop cfg b l s).m_audio_samples = s.m_audio_samples
      ∧ (flushVideoLoop cfg b l s).m_log = s.m_log
      ∧ (flushVideoLoop cfg b l s).m_warn_drop_video = s.m_warn_drop_video
      ∧ (flushVideoLoop cfg b l s).m_warn_desync = s.m_warn_desync
      ∧ (flushVideoLoop cfg b l s).m_error_occurred = s.m_error_occurred
      ∧ (flushVideoLoop cfg b l s).m_worker_stopped = s.m_worker_stopped
      ∧ (flushVideoLoop cfg b l s).m_should_stop = s.m_should_stop := by
  intro l
  induction l with
  | nil =>
      intro s
      exact ⟨le_refl _, Nat.zero_le _, rfl, rfl, rfl, rfl, rfl, rfl, rfl, rfl⟩
  | cons f rest ih =>
      intro s
      simp only [flushVideoLoop]
      split
      · exact ⟨le_refl _, le_refl _, rfl, rfl, rfl, rfl, rfl, rfl, rfl, rfl⟩
      · split
        · split
          · obtain ⟨p1, p2, p3, p4, p5, p6, p7, p8, p9, p10⟩ := ih s
            refine ⟨p1, ?_, p3, p4, p5, p6, p7, p8, p9, p10⟩
            simp only [List.length_cons]
            omega
          · exact ⟨le_refl _, le_refl _, rfl, rfl, rfl, rfl, rfl, rfl, rfl, rfl⟩
        · obtain ⟨p1, p2, p3, p4, p5, p6, p7, p8, p9, p10⟩ := ih
            { s with
              m_video_pts := s.m_video_pts + (dupCount cfg s f.timestamp : Int) + 1,
              m_last_video_frame_data := some f.data,
              m_segment_video_accumulated_delay :=
                s.m_segment_video_accumulated_delay
                  + (dupCount cfg s f.timestamp : Int) * (1000000 / (cfg.frame_rate : Int)) }
          refine ⟨?_, ?_, p3, p4, p5, p6, p7, p8, p9, p10⟩
          · dsimp only at p1
            omega
          · simp only [List.length_cons]
            omega

theorem flushAudioBuffer_facts (cfg : SyncConfig) (a b : Int) (s : SharedData) :
    s.m_audio_samples ≤ (FlushAudioBuffer cfg a b s).m_audio_samples
    ∧ (FlushAudioBuffer cfg a b s).m_audio_buffer_samples ≤ s.m_audio_buffer_samples
    ∧ (FlushAudioBuffer cfg a b s).m_video_pts = s.m_video_pts
    ∧ (FlushAudioBuffer cfg a b s).m_video_buffer = s.m_video_buffer
    ∧ (FlushAudioBuffer cfg a b s).m_log = s.m_log
    ∧ (FlushAudioBuffer cfg a b s).m_warn_drop_video = s.m_warn_drop_video
    ∧ (FlushAudioBuffer cfg a b s).m_warn_desync = s.m_warn_desync
    ∧ (FlushAudioBuffer cfg a b s).m_error_occurred = s.m_error_occurred
    ∧ (FlushAudioBuffer cfg a b s).m_worker_stopped = s.m_worker_stopped
    ∧ (FlushAudioBuffer cfg a b s).m_should_stop = s.m_should_stop := by
  simp only [FlushAudioBuffer]
  split
  · split
    · exact ⟨le_add_of_nonneg_right (Int.natCast_nonneg _),
        le_trans (Nat.sub_le _ _) (Nat.sub_le _ _), rfl, rfl, rfl, rfl, rfl, rfl, rfl, rfl⟩
    · exact ⟨le_add_of_nonneg_right (Int.natCast_nonneg _),
        Nat.sub_le _ _, rfl, rfl, rfl, rfl, rfl, rfl, rfl, rfl⟩
  · exact ⟨le_refl _, le_refl _, rfl, rfl, rfl, rfl, rfl, rfl, rfl, rfl⟩

theorem flushBuffers_facts (cfg : SyncConfig) (s : SharedData) :
    s.m_video_pts ≤ (FlushBuffers cfg s).m_video_pts
    ∧ s.m_audio_samples ≤ (FlushBuffers cfg s).m_audio_samples
    ∧ (FlushBuffers cfg s).m_video_buffer.length ≤ s.m_video_buffer.length
    ∧ (FlushBuffers cfg s).m_audio_buffer_samples ≤ s.m_audio_buffer_samples
    ∧ (FlushBuffers cfg s).m_log = s.m_log
    ∧ (FlushBuffers cfg s).m_warn_drop_video = s.m_warn_drop_video
    ∧ (FlushBuffers cfg s).m_warn_desync = s.m_warn_desync
    ∧ (FlushBuffers cfg s).m_error_occurred = s.m_error_occurred
    ∧ (FlushBuffers cfg s).m_worker_stopped = s.m_worker_stopped
    ∧ (FlushBuffers cfg s).m_should_stop = s.m_should_stop := by
  simp only [FlushBuffers]
  split
  · have hv := flushVideoLoop_spec cfg (GetSegmentStartStop s).2 s.m_video_buffer s
    have ha := flushAudioBuffer_facts cfg (GetSegmentStartStop s).1 (GetSegmentStartStop s).2
      (FlushVideoBuffer cfg (GetSegmentStartStop s).2 s)
    simp only [FlushVideoBuffer] at ha ⊢
    obtain ⟨v1, v2, v3, v4, v5, v6, v7, v8, v9, v10⟩ := hv
    obtain ⟨a1, a2, a3, a4, a5, a6, a7, a8, a9, a10⟩ := ha
    refine ⟨?_, ?_, ?_, ?_, ?_, ?_, ?_, ?_, ?_, ?_⟩
    · rw [a3]; exact v1
    · exact le_trans (le_of_eq v4.symm) a1
    · rw [a4]; exact v2
    · exact le_trans a2 (le_of_eq v3)
    · rw [a5, v5]
    · rw [a6, v6]
    · rw [a7, v7]
    · rw [a8, v8]
    · rw [a9, v9]
    · rw [a10, v10]
  · exact ⟨le_refl _, le_refl _, le_refl _, le_refl _, rfl, rfl, rfl, rfl, rfl, rfl⟩

theorem winv_update_vts (X : SharedData) (t1 t2 : Int) (h : WInv X) :
    WInv { X with m_segment_video_last_timestamp := t1,
                  m_segment_video_stop_time := t2 } := h

theorem winv_update_ats (X : SharedData) (t1 t2 : Int) (b : Bool) (h : WInv X) :
    WInv { X with m_segment_audio_last_timestamp := t1,
                  m_segment_audio_stop_time := t2, m_audio_hole_pending := b } := h

theorem winv_update_abuf (X : SharedData) (k : Nat) (h : WInv X) :
    WInv { X with m_audio_buffer_samples := k } := h

theorem winv_update_desync (X : SharedData) (q1 q2 : ℚ) (h : WInv X) :
    WInv { X with m_av_desync_i := q1, m_av_desync := q2 } := h

theorem audioOverflowTrim_winv (cfg : SyncConfig) (s : SharedData) (h : WInv s) :
    WInv (audioOverflowTrim cfg s) := by
  unfold WInv
  rw [audioOverflowTrim_log, audioOverflowTrim_warn_drop, audioOverflowTrim_warn_desync]
  exact h

theorem readVideoFrame_facts (cfg : SyncConfig) (ts : Int) (d : Nat) (s : SharedData) :
    (ReadVideoFrame cfg ts d s).m_video_pts = s.m_video_pts
    ∧ (ReadVideoFrame cfg ts d s).m_audio_samples = s.m_audio_samples
    ∧ (ReadVideoFrame cfg ts d s).m_audio_buffer_samples = s.m_audio_buffer_samples
    ∧ (ReadVideoFrame cfg ts d s).m_error_occurred = s.m_error_occurred := by
  simp only [ReadVideoFrame]
  cases h0 : s.m_segment_video_started with
  | true =>
      simp only [reduceIte]
      split
      all_goals simp [enqueueFrame_video_pts, enqueueFrame_audio_samples,
        enqueueFrame_audio_buffer, enqueueFrame_error, enqueueClones_video_pts,
        enqueueClones_audio_samples, enqueueClones_audio_buffer, enqueueClones_error]
  | false =>
      simp only [Bool.false_eq_true, reduceIte]
      split
      all_goals simp [enqueueFrame_video_pts, enqueueFrame_audio_samples,
        enqueueFrame_audio_buffer, enqueueFrame_error, enqueueClones_video_pts,
        enqueueClones_audio_samples, enqueueClones_audio_buffer, enqueueClones_error]

theorem readVideoFrame_winv (cfg : SyncConfig) (ts : Int) (d : Nat) (s : SharedData)
    (h : WInv s) : WInv (ReadVideoFrame cfg ts d s) := by
  simp only [ReadVideoFrame]
  cases h0 : s.m_segment_video_started with
  | true =>
      simp only [reduceIte]
      split
      · exact h
      · apply winv_update_vts
        apply enqueueFrame_winv
        apply enqueueClones_winv
        exact h
  | false =>
      simp only [Bool.false_eq_true, reduceIte]
      split
      · exact h
      · apply winv_update_vts
        apply enqueueFrame_winv
        apply enqueueClones_winv
        exact h

theorem readAudioSamples_facts (cfg : SyncConfig) (n : Nat) (ts : Int) (s : SharedData) :
    (ReadAudioSamples cfg n ts s).m_video_pts = s.m_video_pts
    ∧ (ReadAudioSamples cfg n ts s).m_audio_samples = s.m_audio_samples
    ∧ (ReadAudioSamples cfg n ts s).m_video_buffer = s.m_video_buffer
    ∧ (ReadAudioSamples cfg n ts s).m_error_occurred = s.m_error_occurred := by
  simp only [ReadAudioSamples]
  cases h0 : s.m_segment_audio_started with
  | true =>
      simp only [reduceIte]
      split
      all_goals simp [audioOverflowTrim_video_pts, audioOverflowTrim_audio_samples,
        audioOverflowTrim_video_buffer, audioOverflowTrim_error, raiseDesync_video_pts,
        raiseDesync_audio_samples, raiseDesync_video_buffer, raiseDesync_error]
  | false =>
      simp only [Bool.false_eq_true, reduceIte]
      split
      all_goals simp [audioOverflowTrim_video_pts, audioOverflowTrim_audio_samples,
        audioOverflowTrim_video_buffer, audioOverflowTrim_error, raiseDesync_video_pts,
        raiseDesync_audio_samples, raiseDesync_video_buffer, raiseDesync_error]

theorem readAudioSamples_bound (cfg : SyncConfig) (n : Nat) (ts : Int) (s : SharedData) :
    (ReadAudioSamples cfg n ts s).m_audio_buffer_samples ≤ cfg.MAX_AUDIO_SAMPLES_BUFFERED := by
  simp only [ReadAudioSamples]
  exact audioOverflowTrim_le cfg _

theorem readAudioSamples_winv (cfg : SyncConfig) (n : Nat) (ts : Int) (s : SharedData)
    (h : WInv s) : WInv (ReadAudioSamples cfg n ts s) := by
  simp only [ReadAudioSamples]
  cases h0 : s.m_segment_audio_started with
  | true =>
      simp only [reduceIte]
      apply winv_update_ats
      apply audioOverflowTrim_winv
      apply winv_update_abuf
      split
      · apply raiseDesync_winv
        apply winv_update_desync
        exact h
      · apply winv_update_desync
        exact h
  | false =>
      simp only [Bool.false_eq_true, reduceIte]
      apply winv_update_ats
      apply audioOverflowTrim_winv
      apply winv_update_abuf
      split
      · apply raiseDesync_winv
        exact h
      · exact h

theorem newSegment_facts (cfg : SyncConfig) (s : SharedData) :
    s.m_video_pts ≤ (NewSegment cfg s).m_video_pts
    ∧ s.m_audio_samples ≤ (NewSegment cfg s).m_audio_samples
    ∧ (NewSegment cfg s).m_error_occurred = s.m_error_occurred
    ∧ (NewSegment cfg s).m_log = s.m_log
    ∧ (NewSegment cfg s).m_warn_drop_video = s.m_warn_drop_video
    ∧ (NewSegment cfg s).m_warn_desync = s.m_warn_desync
    ∧ (NewSegment cfg s).m_video_buffer.length ≤ s.m_video_buffer.length
    ∧ (NewSegment cfg s).m_audio_buffer_samples ≤ s.m_audio_buffer_samples := by
  simp only [NewSegment]
  split
  · exact ⟨le_refl _, le_refl _, rfl, rfl, rfl, rfl, le_refl _, le_refl _⟩
  · obtain ⟨f1, f2, f3, f4, f5, f6, f7, f8, f9, f10⟩ := flushBuffers_facts cfg s
    exact ⟨f1, f2, f8, f5, f6, f7, Nat.zero_le _, Nat.zero_le _⟩

theorem newSegment_winv (cfg : SyncConfig) (s : SharedData) (h : WInv s) :
    WInv (NewSegment cfg s) := by
  obtain ⟨_, _, _, l4, l5, l6, _, _⟩ := newSegment_facts cfg s
  unfold WInv at h ⊢
  rw [l4, l5, l6]
  exact h

theorem workerStep_facts (cfg : SyncConfig) (r : EncResult) (s : SharedData) :
    s.m_video_pts ≤ (SynchronizerThreadStep cfg r s).m_video_pts
    ∧ s.m_audio_samples ≤ (SynchronizerThreadStep cfg r s).m_audio_samples
    ∧ (s.m_error_occurred = true → (SynchronizerThreadStep cfg r s).m_error_occurred = true)
    ∧ (SynchronizerThreadStep cfg r s).m_log = s.m_log
    ∧ (SynchronizerThreadStep cfg r s).m_warn_drop_video = s.m_warn_drop_video
    ∧ (SynchronizerThreadStep cfg r s).m_warn_desync = s.m_warn_desync
    ∧ (SynchronizerThreadStep cfg r s).m_video_buffer.length ≤ s.m_video_buffer.length
    ∧ (SynchronizerThreadStep cfg r s).m_audio_buffer_samples ≤ s.m_audio_buffer_samples := by
  unfold SynchronizerThreadStep
  split
  · exact ⟨le_refl _, le_refl _, fun h => h, rfl, rfl, rfl, le_refl _, le_refl _⟩
  · split
    · exact ⟨le_refl _, le_refl _, fun h => h, rfl, rfl, rfl, le_refl _, le_refl _⟩
    · cases r with
      | ok =>
          obtain ⟨f1, f2, f3, f4, f5, f6, f7, f8, f9, f10⟩ := flushBuffers_facts cfg s
          exact ⟨f1, f2, fun h => by rw [f8]; exact h, f5, f6, f7, f3, f4⟩
      | exn =>
          exact ⟨le_refl _, le_refl _, fun h => rfl, rfl, rfl, rfl, le_refl _, le_refl _⟩

theorem workerStep_winv (cfg : SyncConfig) (r : EncResult) (s : SharedData) (h : WInv s) :
    WInv (SynchronizerThreadStep cfg r s) := by
  obtain ⟨_, _, _, l4, l5, l6, _, _⟩ := workerStep_facts cfg r s
  unfold WInv at h ⊢
  rw [l4, l5, l6]
  exact h

theorem applyOp_facts (cfg : SyncConfig) (op : SyncOp) (s : SharedData) :
    s.m_video_pts ≤ (applyOp cfg op s).m_video_pts
    ∧ s.m_audio_samples ≤ (applyOp cfg op s).m_audio_samples
    ∧ (s.m_error_occurred = true → (applyOp cfg op s).m_error_occurred = true) := by
  cases op with
  | videoFrame ts d =>
      obtain ⟨q1, q2, q3, q4⟩ := readVideoFrame_facts cfg ts d s
      exact ⟨le_of_eq q1.symm, le_of_eq q2.symm, fun h => by rw [show (applyOp cfg
        (SyncOp.videoFrame ts d) s) = ReadVideoFrame cfg ts d s from rfl, q4]; exact h⟩
  | videoPing ts =>
      show s.m_video_pts ≤ (ReadVideoPing ts s).m_video_pts
        ∧ s.m_audio_samples ≤ (ReadVideoPing ts s).m_audio_samples
        ∧ (s.m_error_occurred = true → (ReadVideoPing ts s).m_error_occurred = true)
      unfold ReadVideoPing
      split
      · exact ⟨le_refl _, le_refl _, fun h => h⟩
      · exact ⟨le_refl _, le_refl _, fun h => h⟩
  | audioSamples n ts =>
      obtain ⟨q1, q2, q3, q4⟩ := readAudioSamples_facts cfg n ts s
      exact ⟨le_of_eq q1.symm, le_of_eq q2.symm, fun h => by rw [show (applyOp cfg
        (SyncOp.audioSamples n ts) s) = ReadAudioSamples cfg n ts s from rfl, q4]; exact h⟩
  | audioHole =>
      show s.m_video_pts ≤ (ReadAudioHole s).m_video_pts
        ∧ s.m_audio_samples ≤ (ReadAudioHole s).m_audio_samples
        ∧ (s.m_error_occurred = true → (ReadAudioHole s).m_error_occurred = true)
      unfold ReadAudioHole
      split
      · exact ⟨le_refl _, le_refl _, fun h => h⟩
      · exact ⟨le_refl _, le_refl _, fun h => h⟩
  | newSegment =>
      obtain ⟨f1, f2, f3, _, _, _, _, _⟩ := newSegment_facts cfg s
      exact ⟨f1, f2, fun h => by rw [show (applyOp cfg SyncOp.newSegment s)
        = NewSegment cfg s from rfl, f3]; exact h⟩
  | workerIter r =>
      obtain ⟨w1, w2, w3, _, _, _, _, _⟩ := workerStep_facts cfg r s
      exact ⟨w1, w2, w3⟩
  | stopRequest =>
      exact ⟨le_refl _, le_refl _, fun h => h⟩

theorem applyOp_bounded (cfg : SyncConfig) (op : SyncOp) (s : SharedData)
    (h : BuffersBounded cfg s) : BuffersBounded cfg (applyOp cfg op s) := by
  obtain ⟨h1, h2⟩ := h
  cases op with
  | videoFrame ts d =>
      constructor
      · show (ReadVideoFrame cfg ts d s).m_video_buffer.length ≤ _
        simp only [ReadVideoFrame]
        cases h0 : s.m_segment_video_started with
        | true =>
            simp only [reduceIte]
            split
            · exact h1
            · dsimp only
              apply enqueueFrame_bound
              apply enqueueClones_bound
              exact h1
        | false =>
            simp only [Bool.false_eq_true, reduceIte]
            split
            · exact h1
            · dsimp only
              apply enqueueFrame_bound
              apply enqueueClones_bound
              exact h1
      · show (ReadVideoFrame cfg ts d s).m_audio_buffer_samples ≤ _
        rw [(readVideoFrame_facts cfg ts d s).2.2.1]
        exact h2
  | videoPing ts =>
      show BuffersBounded cfg (ReadVideoPing ts s)
      unfold ReadVideoPing
      split
      · exact ⟨h1, h2⟩
      · exact ⟨h1, h2⟩
  | audioSamples n ts =>
      constructor
      · show (ReadAudioSamples cfg n ts s).m_video_buffer.length ≤ _
        rw [(readAudioSamples_facts cfg n ts s).2.2.1]
        exact h1
      · exact readAudioSamples_bound cfg n ts s
  | audioHole =>
      show BuffersBounded cfg (ReadAudioHole s)
      unfold ReadAudioHole
      split
      · exact ⟨h1, h2⟩
      · exact ⟨h1, h2⟩
  | newSegment =>
      obtain ⟨_, _, _, _, _, _, f7, f8⟩ := newSegment_facts cfg s
      exact ⟨le_trans f7 h1, le_trans f8 h2⟩
  | workerIter r =>
      obtain ⟨_, _, _, _, _, _, w7, w8⟩ := workerStep_facts cfg r s
      exact ⟨le_trans w7 h1, le_trans w8 h2⟩
  | stopRequest =>
      exact ⟨h1, h2⟩

theorem applyOp_winv (cfg : SyncConfig) (op : SyncOp) (s : SharedData)
    (h : WInv s) : WInv (applyOp cfg op s) := by
  cases op with
  | videoFrame ts d => exact readVideoFrame_winv cfg ts d s h
  | videoPing ts =>
      show WInv (ReadVideoPing ts s)
      unfold ReadVideoPing
      split
      · exact h
      · exact h
  | audioSamples n ts => exact readAudioSamples_winv cfg n ts s h
  | audioHole =>
      show WInv (ReadAudioHole s)
      unfold ReadAudioHole
      split
      · exact h
      · exact h
  | newSegment => exact newSegment_winv cfg s h
  | workerIter r => exact workerStep_winv cfg r s h
  | stopRequest => exact h

theorem runOps_mono (cfg : SyncConfig) (ops : List SyncOp) :
    ∀ s : SharedData, s.m_video_pts ≤ (runOps cfg ops s).m_video_pts
      ∧ s.m_audio_samples ≤ (runOps cfg ops s).m_audio_samples := by
  induction ops with
  | nil => exact fun s => ⟨le_refl _, le_refl _⟩
  | cons op rest ih =>
      intro s
      obtain ⟨a1, a2, _⟩ := applyOp_facts cfg op s
      obtain ⟨b1, b2⟩ := ih (applyOp cfg op s)
      exact ⟨le_trans a1 b1, le_trans a2 b2⟩

theorem runOps_bounded (cfg : SyncConfig) (ops : List SyncOp) :
    ∀ s : SharedData, BuffersBounded cfg s → BuffersBounded cfg (runOps cfg ops s) := by
  induction ops with
  | nil => exact fun s h => h
  | cons op rest ih => exact fun s h => ih (applyOp cfg op s) (applyOp_bounded cfg op s h)

theorem runOps_winv (cfg : SyncConfig) (ops : List SyncOp) :
    ∀ s : SharedData, WInv s → WInv (runOps cfg ops s) := by
  induction ops with
  | nil => exact fun s h => h
  | cons op rest ih => exact fun s h => ih (applyOp cfg op s) (applyOp_winv cfg op s h)

theorem newSegment_init (cfg : SyncConfig) :
    NewSegment cfg (initialState cfg) = initialState cfg := by
  cases hv : cfg.video_enabled <;> cases ha : cfg.audio_enabled <;>
    simp [NewSegment, initialState, InitSegment, FlushBuffers, FlushVideoBuffer,
      flushVideoLoop, FlushAudioBuffer, GetSegmentStartStop, hv, ha]

/-- Claim C1: for every session and every pair of states reachable one
after the other by any operation (ingest, flush, NewSegment), the output
counters never decrease: `m_audio_samples` is non-decreasing across the
session and `m_video_pts` is non-decreasing across the session. -/
theorem claim_C1 (cfg : SyncConfig) (ops : List SyncOp) (s : SharedData) :
    s.m_video_pts ≤ (runOps cfg ops s).m_video_pts
    ∧ s.m_audio_samples ≤ (runOps cfg ops s).m_audio_samples :=
  runOps_mono cfg ops s

/-- Claim C3: in every state, `GetTotalTime` returns exactly
`time_offset + max(0, current_segment_stop - current_segment_start)`
microseconds, where the segment bounds are those of the currently open
segment over its started streams. -/
theorem claim_C3 (s : SharedData) :
    GetTotalTime s = s.m_time_offset
      + max 0 ((GetSegmentStartStop s).2 - (GetSegmentStartStop s).1) := by
  unfold GetTotalTime
  split
  · rfl
  · next hcond =>
      have hv : s.m_segment_video_started = false := by
        cases hb : s.m_segment_video_started
        · rfl
        · exact absurd (by rw [hb, Bool.true_or]) hcond
      have ha : s.m_segment_audio_started = false := by
        cases hb : s.m_segment_audio_started
        · rfl
        · exact absurd (by rw [hb, Bool.or_true]) hcond
      simp [GetSegmentStartStop, hv, ha]

/-- Claim C4: `NewSegment` is idempotent on empty segments — for every
state in which neither stream has started in the current segment,
calling `NewSegment` leaves the state unchanged, and calling it `n`
times (for any `n ≥ 1`) before any input produces the same state as
calling it once. -/
theorem claim_C4 (cfg : SyncConfig) (s : SharedData) (n : Nat)
    (h1 : s.m_segment_video_started = false) (h2 : s.m_segment_audio_started = false)
    (h3 : 1 ≤ n) :
    NewSegment cfg s = s
    ∧ (NewSegment cfg)^[n] (initialState cfg) = NewSegment cfg (initialState cfg) := by
  constructor
  · unfold NewSegment
    rw [if_pos ⟨h1, h2⟩]
  · rw [Function.iterate_fixed (newSegment_init cfg) n, newSegment_init cfg]

theorem claim_C4_witness :
    NewSegment cfgA (initialState cfgA) = initialState cfgA
    ∧ (NewSegment cfgA)^[1] (initialState cfgA) = NewSegment cfgA (initialState cfgA) :=
  claim_C4 cfgA (initialState cfgA) 1 rfl rfl (le_refl 1)

/-- Claim C5: `GetNextVideoTimestamp` returns
`max(video_last_timestamp + 1/frame_rate, video_stop_time)` (in
microseconds) whenever a segment is running (video has started), and
returns 0 before the first video frame of the session. -/
theorem claim_C5 (cfg : SyncConfig) (s : SharedData)
    (h1 : s.m_segment_video_started = true) (h2 : cfg.video_enabled = true) :
    GetNextVideoTimestamp cfg s
      = max (s.m_segment_video_last_timestamp + 1000000 / (cfg.frame_rate : Int))
          s.m_segment_video_stop_time
    ∧ GetNextVideoTimestamp cfg (initialState cfg) = 0 := by
  constructor
  · unfold GetNextVideoTimestamp
    rw [if_pos h1]
  · unfold GetNextVideoTimestamp
    rw [if_neg (by simp [initialState, InitSegment, h2])]

theorem claim_C5_witness :
    GetNextVideoTimestamp cfgA stA
      = max (stA.m_segment_video_last_timestamp + 1000000 / (cfgA.frame_rate : Int))
          stA.m_segment_video_stop_time
    ∧ GetNextVideoTimestamp cfgA (initialState cfgA) = 0 :=
  claim_C5 cfgA stA rfl rfl

/-- Claim C2: the video ring buffer never holds more than
`MAX_VIDEO_FRAMES_BUFFERED` frames and the audio ring buffer never holds
more than `MAX_AUDIO_SAMPLES_BUFFERED` samples along any run from the
initial state; on video overflow `ReadVideoFrame` drops the oldest
queued frame, and on audio overflow `ReadAudioSamples` drops samples
from the head of the buffer, incrementing `audio_samples_read` by the
number dropped; the operations are total functions, so overflow never
causes an allocation failure. -/
theorem claim_C2 (cfg : SyncConfig) (ops : List SyncOp) (s1 s2 : SharedData) (ts : Int)
    (d n : Nat)
    (hmax : 0 < cfg.MAX_VIDEO_FRAMES_BUFFERED)
    (hv1 : s1.m_segment_video_started = true)
    (hv2 : s1.m_segment_video_last_timestamp ≤ ts)
    (hv3 : ts - s1.m_segment_video_last_timestamp ≤ 2 * (1000000 / (cfg.frame_rate : Int)))
    (hv4 : s1.m_video_buffer.length = cfg.MAX_VIDEO_FRAMES_BUFFERED)
    (ha1 : s2.m_segment_audio_started = true)
    (ha2 : cfg.MAX_AUDIO_SAMPLES_BUFFERED < s2.m_audio_buffer_samples + n) :
    BuffersBounded cfg (runOps cfg ops (initialState cfg))
    ∧ (ReadVideoFrame cfg ts d s1).m_video_buffer
        = s1.m_video_buffer.tail ++ [⟨ts, d⟩]
    ∧ (ReadAudioSamples cfg n ts s2).m_audio_buffer_samples
        = cfg.MAX_AUDIO_SAMPLES_BUFFERED
    ∧ (ReadAudioSamples cfg n ts s2).m_segment_audio_samples_read
        = s2.m_segment_audio_samples_read
          + ((s2.m_audio_buffer_samples + n - cfg.MAX_AUDIO_SAMPLES_BUFFERED : Nat) : Int) := by
  have key : (ReadAudioSamples cfg n ts s2).m_audio_buffer_samples
        = cfg.MAX_AUDIO_SAMPLES_BUFFERED
      ∧ (ReadAudioSamples cfg n ts s2).m_segment_audio_samples_read
        = s2.m_segment_audio_samples_read
          + ((s2.m_audio_buffer_samples + n - cfg.MAX_AUDIO_SAMPLES_BUFFERED : Nat) : Int) := by
    simp only [ReadAudioSamples]
    rw [if_pos ha1]
    split
    · unfold audioOverflowTrim
      rw [if_pos (by simp only [raiseDesync_audio_buffer]; exact ha2)]
      constructor
      · simp
      · simp only [raiseDesync_samples_read, raiseDesync_audio_buffer]
    · unfold audioOverflowTrim
      rw [if_pos ha2]
      exact ⟨rfl, rfl⟩
  refine ⟨runOps_bounded cfg ops _ ⟨Nat.zero_le _, Nat.zero_le _⟩, ?_, key.1, key.2⟩
  have hclone : cloneCount cfg s1.m_segment_video_started s1 ts = 0 := by
    unfold cloneCount
    rw [if_neg (fun hcon => absurd hcon.2 (not_lt.mpr hv3))]
  simp only [ReadVideoFrame]
  rw [if_pos hv1, if_neg (not_lt.mpr hv2), hclone]
  dsimp only
  rw [show enqueueClones cfg s1.m_segment_video_last_timestamp
    (1000000 / (cfg.frame_rate : Int)) (s1.m_last_video_frame_data.getD 0) 0 s1 = s1 from rfl]
  simp only [enqueueFrame]
  rw [if_pos (by simp only [List.length_append, List.length_singleton]; omega)]
  simp only [raiseDropVideo_video_buffer]
  cases hb : s1.m_video_buffer with
  | nil =>
      rw [hb] at hv4
      simp at hv4
      omega
  | cons x xs => simp

theorem claim_C2_witness :
    BuffersBounded cfgA (runOps cfgA [] (initialState cfgA))
    ∧ (ReadVideoFrame cfgA 1 0 stA).m_video_buffer = stA.m_video_buffer.tail ++ [⟨1, 0⟩]
    ∧ (ReadAudioSamples cfgA 1 1 stA).m_audio_buffer_samples = cfgA.MAX_AUDIO_SAMPLES_BUFFERED
    ∧ (ReadAudioSamples cfgA 1 1 stA).m_segment_audio_samples_read
        = stA.m_segment_audio_samples_read
          + ((stA.m_audio_buffer_samples + 1 - cfgA.MAX_AUDIO_SAMPLES_BUFFERED : Nat) : Int) :=
  claim_C2 cfgA [] stA stA 1 0 1 (by decide) rfl (by decide) (by decide) (by decide) rfl
    (by decide)

/-- Claim C6: on every call to `ReadAudioSamples` after the segment's
first audio, with `error` the measured instantaneous drift in seconds
(the timestamp minus the expected arrival time `audio_start_time +
audio_samples_read × 1e6 / required_sample_rate`), the PI estimator is
updated as `desync_i += DESYNC_CORRECTION_I × error × dt` and
`desync = desync_i + DESYNC_CORRECTION_P × error`; `|av_desync|` is
clamped to `DESYNC_ERROR_THRESHOLD` and exceeding the threshold raises
the desync warning once. -/
theorem claim_C6 (cfg : SyncConfig) (s : SharedData) (ts : Int) (n : Nat)
    (h : s.m_segment_audio_started = true) (ht : 0 ≤ cfg.DESYNC_ERROR_THRESHOLD) :
    (ReadAudioSamples cfg n ts s).m_av_desync_i
        = s.m_av_desync_i + cfg.DESYNC_CORRECTION_I * audioError cfg s ts * audioDt s ts
    ∧ (ReadAudioSamples cfg n ts s).m_av_desync
        = clampQ ((ReadAudioSamples cfg n ts s).m_av_desync_i
            + cfg.DESYNC_CORRECTION_P * audioError cfg s ts) cfg.DESYNC_ERROR_THRESHOLD
    ∧ |(ReadAudioSamples cfg n ts s).m_av_desync| ≤ cfg.DESYNC_ERROR_THRESHOLD
    ∧ countWarn .desync (ReadAudioSamples cfg n ts s).m_log
        = countWarn .desync s.m_log
          + (if cfg.DESYNC_ERROR_THRESHOLD < |desyncRaw cfg s ts| ∧ s.m_warn_desync = false
             then 1 else 0) := by
  have hdi : (ReadAudioSamples cfg n ts s).m_av_desync_i = desyncINext cfg s ts := by
    simp only [ReadAudioSamples]
    rw [if_pos h]
    split
    all_goals simp [audioOverflowTrim_av_desync_i, raiseDesync_av_desync_i]
  have hd : (ReadAudioSamples cfg n ts s).m_av_desync
      = clampQ (desyncRaw cfg s ts) cfg.DESYNC_ERROR_THRESHOLD := by
    simp only [ReadAudioSamples]
    rw [if_pos h]
    split
    all_goals simp [audioOverflowTrim_av_desync, raiseDesync_av_desync]
  refine ⟨hdi, ?_, ?_, ?_⟩
  · rw [hd, hdi]
    rfl
  · rw [hd]
    exact abs_clampQ_le _ _ ht
  · simp only [ReadAudioSamples]
    rw [if_pos h]
    simp only [audioOverflowTrim_log]
    split
    · next htr =>
        unfold raiseDesync
        dsimp only
        cases hw : s.m_warn_desync with
        | true =>
            simp only [reduceIte]
            rw [if_neg (fun hcon => by simp at hcon)]
            simp
        | false =>
            simp only [Bool.false_eq_true, reduceIte]
            rw [if_pos ⟨htr, by trivial⟩]
            simp [countWarn_append, countWarn]
    · next htr =>
        rw [if_neg (fun hcon => htr hcon.1)]
        simp

theorem claim_C6_witness :
    (ReadAudioSamples cfgA 1 2 stA).m_av_desync_i
        = stA.m_av_desync_i + cfgA.DESYNC_CORRECTION_I * audioError cfgA stA 2 * audioDt stA 2
    ∧ (ReadAudioSamples cfgA 1 2 stA).m_av_desync
        = clampQ ((ReadAudioSamples cfgA 1 2 stA).m_av_desync_i
            + cfgA.DESYNC_CORRECTION_P * audioError cfgA stA 2) cfgA.DESYNC_ERROR_THRESHOLD
    ∧ |(ReadAudioSamples cfgA 1 2 stA).m_av_desync| ≤ cfgA.DESYNC_ERROR_THRESHOLD
    ∧ countWarn .desync (ReadAudioSamples cfgA 1 2 stA).m_log
        = countWarn .desync stA.m_log
          + (if cfgA.DESYNC_ERROR_THRESHOLD < |desyncRaw cfgA stA 2|
                ∧ stA.m_warn_desync = false
             then 1 else 0) :=
  claim_C6 cfgA stA 2 1 rfl (by norm_num [cfgA])

/-- Claim C7: when an encoder raises an exception, the synchronizer sets
the `error_occurred` flag and the emit worker thread stops; a stopped
worker is never reentered; `HasErrorOccurred` returns true from then on
(the flag survives every further operation); and producers calling the
ingest entry points never observe the error directly (ingest is total
and leaves the error flag untouched). -/
theorem claim_C7 (cfg : SyncConfig) (s1 s2 s3 : SharedData) (op : SyncOp) (r : EncResult)
    (ts : Int) (d n : Nat)
    (h1 : s1.m_worker_stopped = false) (h2 : s1.m_should_stop = false)
    (h3 : s2.m_worker_stopped = true) (h4 : s3.m_error_occurred = true) :
    (SynchronizerThreadStep cfg EncResult.exn s1).m_error_occurred = true
    ∧ (SynchronizerThreadStep cfg EncResult.exn s1).m_worker_stopped = true
    ∧ SynchronizerThreadStep cfg r s2 = s2
    ∧ HasErrorOccurred s3 = true
    ∧ (applyOp cfg op s3).m_error_occurred = true
    ∧ (ReadVideoFrame cfg ts d s1).m_error_occurred = s1.m_error_occurred
    ∧ (ReadAudioSamples cfg n ts s1).m_error_occurred = s1.m_error_occurred := by
  refine ⟨?_, ?_, ?_, h4, (applyOp_facts cfg op s3).2.2 h4,
    (readVideoFrame_facts cfg ts d s1).2.2.2, (readAudioSamples_facts cfg n ts s1).2.2.2⟩
  · unfold SynchronizerThreadStep
    rw [if_neg (by simp [h1]), if_neg (by simp [h2])]
  · unfold SynchronizerThreadStep
    rw [if_neg (by simp [h1]), if_neg (by simp [h2])]
  · unfold SynchronizerThreadStep
    rw [if_pos h3]

theorem claim_C7_witness :
    (SynchronizerThreadStep cfgA EncResult.exn stA).m_error_occurred = true
    ∧ (SynchronizerThreadStep cfgA EncResult.exn stA).m_worker_stopped = true
    ∧ SynchronizerThreadStep cfgA EncResult.ok stStopped = stStopped
    ∧ HasErrorOccurred stErr = true
    ∧ (applyOp cfgA SyncOp.audioHole stErr).m_error_occurred = true
    ∧ (ReadVideoFrame cfgA 1 0 stA).m_error_occurred = stA.m_error_occurred
    ∧ (ReadAudioSamples cfgA 1 1 stA).m_error_occurred = stA.m_error_occurred :=
  claim_C7 cfgA stA stStopped stErr SyncOp.audioHole EncResult.ok 1 0 1 rfl rfl rfl rfl

/-- Claim C8: for every session and every warning kind (drop-video on
overflow, desync on drift excursion), the warning is emitted to the
logger at most once per session, no matter how many times the triggering
condition recurs. -/
theorem claim_C8 (cfg : SyncConfig) (ops : List SyncOp) :
    countWarn .dropVideo (runOps cfg ops (initialState cfg)).m_log ≤ 1
    ∧ countWarn .desync (runOps cfg ops (initialState cfg)).m_log ≤ 1 := by
  have hinit : WInv (initialState cfg) :=
    ⟨⟨Nat.zero_le 1, fun _ => rfl⟩, ⟨Nat.zero_le 1, fun _ => rfl⟩⟩
  have h := runOps_winv cfg ops (initialState cfg) hinit
  exact ⟨h.1.1, h.2.1⟩

/-- Claim C9: constructing a `VideoEncoder` throws — before any codec is
created — exactly when the requested width or height is zero, exceeds
10000, or is odd; for all other dimensions the validation passes and
codec creation is attempted. -/
theorem claim_C9 (w h : Nat) :
    VideoEncoderInit w h =
      if w = 0 ∨ h = 0 ∨ 10000 < w ∨ 10000 < h ∨ w % 2 = 1 ∨ h % 2 = 1
      then VideoInitResult.throwBeforeCodec
      else VideoInitResult.codecCreationAttempted := by
  unfold VideoEncoderInit
  split_ifs <;> first | rfl | (exfalso; omega)

/-- Claim C10 counterexample: under the new encode API
(`SSR_USE_AVCODEC_ENCODE_AUDIO2`), a codec context reporting
`frame_size = 0` without the variable-frame-size capability makes
`GetRequiredFrameSize` return 0, so the claimed "always returns a
positive frame size" fails at this input. -/
theorem claim_C10_counterexample : GetRequiredFrameSize true zeroVarCtx = 0 := rfl

/-- Claim C10 (amended): `FillCodecContext` always configures 2 channels
and `AV_SAMPLE_FMT_S16` regardless of constructor arguments;
`GetRequiredFrameSize` is positive whenever the codec's fixed
`frame_size` is positive, and falls back to 1024 exactly when, under the
new encode API, the codec has the variable-frame-size capability, or,
under the old encode API, `frame_size` is zero; and under the old encode
API, `EncodeFrame` throws if a non-null frame's format is not
`AV_SAMPLE_FMT_S16`. -/
theorem claim_C10 (br sr : Nat) (ctx : AVCodecCtx) (u : Bool) (f : AudioFrame) (bytes : Int)
    (hfs : 0 < ctx.frame_size) (hf : f.format ≠ AVSampleFmt.s16) :
    (FillCodecContext br sr ctx).channels = 2
    ∧ (FillCodecContext br sr ctx).sample_fmt = AVSampleFmt.s16
    ∧ 0 < GetRequiredFrameSize u ctx
    ∧ GetRequiredFrameSize true { ctx with variable_frame_size := true } = 1024
    ∧ GetRequiredFrameSize false { ctx with frame_size := 0 } = 1024
    ∧ EncodeFrameOldApi (some f) bytes = Except.error () := by
  refine ⟨rfl, rfl, ?_, rfl, rfl, ?_⟩
  · unfold GetRequiredFrameSize
    split_ifs <;> omega
  · simp only [EncodeFrameOldApi]
    rw [if_pos hf]

theorem claim_C10_witness :
    (FillCodecContext 1 2 posCtx).channels = 2
    ∧ (FillCodecContext 1 2 posCtx).sample_fmt = AVSampleFmt.s16
    ∧ 0 < GetRequiredFrameSize true posCtx
    ∧ GetRequiredFrameSize true { posCtx with variable_frame_size := true } = 1024
    ∧ GetRequiredFrameSize false { posCtx with frame_size := 0 } = 1024
    ∧ EncodeFrameOldApi (some ⟨AVSampleFmt.flt⟩) 5 = Except.error () :=
  claim_C10 1 2 posCtx true ⟨AVSampleFmt.flt⟩ 5 (by decide) (by decide)
